import Mathlib

/-
Verification of the template-matching locator engine:
geometry primitives, the locator data model (`RPA/core/locators/containers.py`),
the brute-force fallback matcher and search driver
(`RPA/core/locators/templates.py`), the accelerated statistical matcher
(`RPA/recognition/templates.py`), and the polling wrapper (`RPA/Images.py`).
Python integers are modelled as `Int`/`Nat`, floats as `ℚ`, fallible code as
`Except`, and unbounded loops carry an explicit fuel argument.
-/

set_option autoImplicit false

namespace Spec2Proof

/-- Modelled from the spec: `Point` from `RPA.core.geometry`, a module this
repository provides but which is absent from the sources; spec section 3:
pixel coordinate with structural equality. -/
structure Point where
  x : Int
  y : Int
  deriving DecidableEq, Repr

/-- Modelled from the spec: `Region` from `RPA.core.geometry` (absent from the
sources); spec section 3: axis-aligned rectangle `{left, top, right, bottom}`. -/
structure Region where
  left : Int
  top : Int
  right : Int
  bottom : Int
  deriving DecidableEq, Repr

/-- Modelled from the spec: `Region.from_size(x, y, w, h)` constructs
`{left:x, top:y, right:x+w, bottom:y+h}` (spec section 4.1). -/
def Region.from_size (x y w h : Int) : Region :=
  ⟨x, y, x + w, y + h⟩

/-- Modelled from the spec: `Region.move(dx, dy)` translates the region
(spec section 3). The search driver calls `match.move(...)` for its side
effect on the match, so the mutation is modelled by replacing the region
with its translate. -/
def Region.move (r : Region) (dx dy : Int) : Region :=
  ⟨r.left + dx, r.top + dy, r.right + dx, r.bottom + dy⟩

/-- Modelled from the spec: `Region.center = ((left+right)/2, (top+bottom)/2)`
(spec section 3), with Python floor division on ints. -/
def Region.center (r : Region) : Point :=
  ⟨(r.left + r.right) / 2, (r.top + r.bottom) / 2⟩

/-- Grayscale image handle: `width`/`height` as `PIL.Image.size` reports them
and `data` the flattened row-major luminance values as `getdata` returns
them. `ImageOps.grayscale` is the identity on this single-channel model. -/
structure Img where
  width : Nat
  height : Nat
  data : List Nat
  deriving DecidableEq, Repr

/-- Error taxonomy of the engine and driver: `ValueError("Template is larger
than search region")`, `ImageNotFoundError`, and the `TypeError` raised by
`min(confidence, 1.00)` when `confidence` is `None`. -/
inductive FindError
  | templateTooLarge
  | imageNotFound
  | typeErrorNoneConfidence
  deriving DecidableEq, Repr

instance {ε α : Type} [DecidableEq ε] [DecidableEq α] : DecidableEq (Except ε α) :=
  fun a b =>
    match a, b with
    | .error e1, .error e2 =>
      if h : e1 = e2 then .isTrue (by rw [h]) else .isFalse (fun hc => h (by injection hc))
    | .error _, .ok _ => .isFalse (fun hc => Except.noConfusion hc)
    | .ok _, .error _ => .isFalse (fun hc => Except.noConfusion hc)
    | .ok a1, .ok a2 =>
      if h : a1 = a2 then .isTrue (by rw [h]) else .isFalse (fun hc => h (by injection hc))

namespace CoreTemplates

/-- Loop body of `_chunks`: `[obj[i : i + size] for i in range(start, len(obj), size)]`
with `start = 0`; the fuel bounds the number of `range` steps. -/
def chunksAux (obj : List Nat) (size : Nat) : Nat → Nat → List (List Nat)
  | 0, _ => []
  | fuel + 1, i =>
    if i < obj.length then ((obj.drop i).take size) :: chunksAux obj size fuel (i + size)
    else []

/-- Embedding of `_chunks` from `RPA/core/locators/templates.py` (the callers
always pass a positive `size`, the image width). -/
def _chunks (obj : List Nat) (size : Nat) : List (List Nat) :=
  chunksAux obj size (obj.length + 1) 0

/-- Inner `while` loop of the shift-table construction in `_search_string`:
`while shift <= idx and pattern[idx] != pattern[idx - shift]:
   shift += shifts[idx - shift]`. -/
def kmpShiftStep (pattern shifts : List Nat) (idx : Nat) : Nat → Nat → Nat
  | 0, shift => shift
  | fuel + 1, shift =>
    if shift ≤ idx ∧ pattern.getD idx 0 ≠ pattern.getD (idx - shift) 0 then
      kmpShiftStep pattern shifts idx fuel (shift + shifts.getD (idx - shift) 1)
    else shift

/-- Shift-table construction of `_search_string`: `shifts = [1] * (pattern_len + 1)`
then, for each `idx`, run the inner loop and assign `shifts[idx + 1] = shift`. -/
def kmpShifts (pattern : List Nat) : List Nat :=
  let n := pattern.length
  ((List.range n).foldl
    (fun (st : List Nat × Nat) idx =>
      let shift := kmpShiftStep pattern st.1 idx (n + 1) st.2
      (st.1.set (idx + 1) shift, shift))
    (List.replicate (n + 1) 1, 1)).1

/-- Inner `while` loop of the search phase of `_search_string`; the state is
`(start_idx, match_len)` and `match_len` can reach `-1`, hence `Int`. -/
def kmpSearchStep (pattern shifts : List Nat) (plen : Nat) (ch : Nat) :
    Nat → Nat × Int → Nat × Int
  | 0, st => st
  | fuel + 1, (s, m) =>
    if m = (plen : Int) ∨ (0 ≤ m ∧ pattern.getD m.toNat 0 ≠ ch) then
      kmpSearchStep pattern shifts plen ch fuel
        (s + shifts.getD m.toNat 1, m - (shifts.getD m.toNat 1 : Int))
    else (s, m)

/-- Embedding of `_search_string` (the Knuth-Morris-Pratt search) from
`RPA/core/locators/templates.py`, returning the yielded start indices in
order. -/
def _search_string (text pattern : List Nat) : List Nat :=
  let plen := pattern.length
  let shifts := kmpShifts pattern
  ((text.foldl
    (fun (st : Nat × Int × List Nat) ch =>
      let p := kmpSearchStep pattern shifts plen ch (plen + 2) (st.1, st.2.1)
      let m := p.2 + 1
      if m = (plen : Int) then (p.1, m, st.2.2 ++ [p.1]) else (p.1, m, st.2.2))
    (0, 0, []))).2.2

/-- Embedding of `_fallback` from `RPA/core/locators/templates.py`.
`image_rows[: -len(template_rows)]` follows Python's negative-stop slice
(empty when the template has zero rows); the verification loop mirrors
`enumerate(template_rows[1:], image_y)`, so template row `1 + k` is compared
against image row `image_y + k`, exactly as the source does. -/
def _fallback (image template : Img) : List Region :=
  let template_rows := _chunks template.data template.width
  let image_rows := _chunks image.data image.width
  let scan :=
    if template_rows.length = 0 then []
    else image_rows.take (image_rows.length - template_rows.length)
  scan.enum.flatMap fun yrow =>
    (_search_string yrow.2 (template_rows.headD [])).filterMap fun image_x =>
      if (template_rows.drop 1).enum.all
          (fun krow =>
            krow.2 == ((image_rows.getD (yrow.1 + krow.1) []).drop image_x).take template.width)
      then some (Region.from_size image_x yrow.1 template.width template.height)
      else none

/-- Embedding of `_find` from `RPA/core/locators/templates.py`, parameterized
by the backend chosen through `HAS_RECOGNITION`. The Python loop appends a
match before testing `len(matches) >= int(limit)`, so `limit = 0` still keeps
one match, hence `take (max n 1)`. -/
def _find (engine : Option ℚ → Except FindError (List Region))
    (confidence : Option ℚ) (limit : Option Nat) : Except FindError (List Region) :=
  match engine confidence with
  | .error e => .error e
  | .ok ms =>
    .ok (match limit with
      | none => ms
      | some n => ms.take (max n 1))

/-- Pixel read used by the crop model: PIL pads out-of-bounds pixels of a crop
box with zero. -/
def getPixel (rows : List (List Nat)) (y x : Int) : Nat :=
  if y < 0 ∨ x < 0 then 0
  else (rows.getD y.toNat []).getD x.toNat 0

/-- Embedding of `image.crop(region.as_tuple())` for box
`(left, top, right, bottom)`: rows `top ≤ i < bottom` and columns
`left ≤ j < right`, zero-padded outside the image as PIL does. -/
def cropImg (image : Img) (r : Region) : Img :=
  let rows := _chunks image.data image.width
  let w := (r.right - r.left).toNat
  let h := (r.bottom - r.top).toNat
  { width := w
    height := h
    data := (List.range h).flatMap fun i =>
      (List.range w).map fun j => getPixel rows (r.top + i) (r.left + j) }

/-- Embedding of `find` from `RPA/core/locators/templates.py`: crop to the
region if given, validate that the template fits, run `_find`, raise
`ImageNotFoundError` on an empty result, and translate matches back by
`(region.left, region.top)`. -/
def find (image template : Img) (region : Option Region) (limit : Option Nat)
    (confidence : Option ℚ)
    (engine : Img → Img → Option ℚ → Except FindError (List Region)) :
    Except FindError (List Region) :=
  let image' := match region with
    | some r => cropImg image r
    | none => image
  if template.width > image'.width ∨ template.height > image'.height then
    .error .templateTooLarge
  else
    match _find (engine image' template) confidence limit with
    | .error e => .error e
    | .ok ms =>
      if ms = [] then .error .imageNotFound
      else .ok (match region with
        | some r => ms.map (fun m => m.move r.left r.top)
        | none => ms)

/-- The fallback backend in the shape `_find` expects: `_fallback` ignores the
confidence (`del confidence`) and never raises. -/
def engineFallback (image template : Img) (confidence : Option ℚ) :
    Except FindError (List Region) :=
  let _ := confidence
  .ok (_fallback image template)

end CoreTemplates

namespace RecognitionTemplates

/-- Embedding of `DEFAULT_CONFIDENCE = 0.95` from `RPA/recognition/templates.py`
(written `Rat.divInt 95 100` so that the kernel can evaluate it). -/
def DEFAULT_CONFIDENCE : ℚ := Rat.divInt 95 100

/-- Embedding of `cv2.minMaxLoc` restricted to what `find` uses: the maximum
value of the coefficient map and its location `(max_x, max_y)`; OpenCV scans
row-major and updates on a strictly greater value, so ties keep the first
position. An empty map returns `(0, 0, 0)` (never reached by the claims). -/
def minMaxLocMax (m : List (List ℚ)) : ℚ × Int × Int :=
  (m.enum.foldl
    (fun acc row =>
      row.2.enum.foldl
        (fun acc2 cell =>
          match acc2 with
          | none => some (cell.2, (cell.1 : Int), (row.1 : Int))
          | some b => if cell.2 > b.1 then some (cell.2, (cell.1 : Int), (row.1 : Int)) else some b)
        acc)
    none).getD (0, 0, 0)

/-- Effective bound of a Python/numpy slice index `a` on an axis of length
`n`: a negative value wraps to `n + a`, then clamps into `[0, n]`. -/
def npIndex (n : Nat) (a : Int) : Nat :=
  if a < 0 then ((n : Int) + a).toNat else min a.toNat n

/-- Membership of index `i` in the numpy basic slice `a : b` over an axis of
length `n`. -/
def inSlice (n : Nat) (a b : Int) (i : Nat) : Prop :=
  npIndex n a ≤ i ∧ i < npIndex n b

instance (n : Nat) (a b : Int) (i : Nat) : Decidable (inSlice n a b i) :=
  inferInstanceAs (Decidable (_ ∧ _))

/-- Embedding of the suppression assignment
`coefficients[match_y - th//2 : match_y + th//2, match_x - tw//2 : match_x + tw//2] = 0`
with numpy basic-slicing semantics, including the wrap-around of negative
bounds. -/
def suppress (m : List (List ℚ)) (x y : Int) (tw th : Nat) : List (List ℚ) :=
  m.enum.map fun row =>
    row.2.enum.map fun cell =>
      if inSlice m.length (y - (th / 2 : Nat)) (y + (th / 2 : Nat)) row.1 ∧
          inSlice row.2.length (x - (tw / 2 : Nat)) (x + (tw / 2 : Nat)) cell.1
      then 0
      else cell.2

/-- Embedding of the `while True` loop of `find` in
`RPA/recognition/templates.py`: locate the global maximum, stop when it is
below the confidence, otherwise yield
`Region.from_size(match_x, match_y, template_width, template_height)` and
suppress its neighborhood. The Python generator need not terminate, so the
number of iterations is bounded by an explicit fuel. -/
def findLoop (coefficients : List (List ℚ)) (confidence : ℚ) (tw th : Nat) :
    Nat → List Region
  | 0 => []
  | fuel + 1 =>
    let r := minMaxLocMax coefficients
    if r.1 < confidence then []
    else
      Region.from_size r.2.1 r.2.2 tw th ::
        findLoop (suppress coefficients r.2.1 r.2.2 tw th) confidence tw th fuel

/-- Embedding of the clamp `confidence = max(0.01, min(confidence, 1.00))`;
when the driver forwards `confidence=None`, the comparison `min(None, 1.00)`
raises `TypeError` in Python 3. -/
def clampConfidence : Option ℚ → Except FindError ℚ
  | none => .error .typeErrorNoneConfidence
  | some c => .ok (max (Rat.divInt 1 100) (min c 1))

/-- Embedding of `find` from `RPA/recognition/templates.py`: clamp the
confidence and run the emission loop over the coefficient map that
`cv2.matchTemplate` (an external library call) computed for the
image/template pair. -/
def find (coefficients : List (List ℚ)) (tw th : Nat) (fuel : Nat)
    (confidence : Option ℚ) : Except FindError (List Region) :=
  match clampConfidence confidence with
  | .error e => .error e
  | .ok c => .ok (findLoop coefficients c tw th fuel)

/-- Reachability of one coefficient map from another through the accepted
suppression steps of the `find` loop: each step locates the global maximum,
checks it against the confidence, and zeroes its neighborhood. -/
inductive SuppressReach (confidence : ℚ) (tw th : Nat) :
    List (List ℚ) → List (List ℚ) → Prop
  | refl (m : List (List ℚ)) : SuppressReach confidence tw th m m
  | head (m m2 : List (List ℚ)) (c : ℚ) (x y : Int) :
      minMaxLocMax m = (c, x, y) → confidence ≤ c →
      SuppressReach confidence tw th (suppress m x y tw th) m2 →
      SuppressReach confidence tw th m m2

end RecognitionTemplates

namespace Locators

/-- Python values that can appear in a locator record: `pathlib.Path`,
`str`, `int`, `float`, and `None`. The dataclasses of
`RPA/core/locators/containers.py` store whatever value they are given, so
locator fields range over this type. -/
inductive Value
  | vPath (p : String)
  | vStr (s : String)
  | vInt (n : Int)
  | vFloat (q : ℚ)
  | vNone
  deriving DecidableEq, Repr

/-- The locator dataclasses of `RPA/core/locators/containers.py`:
`ImageTemplate(path, confidence=100.0)`, `BrowserDOM(strategy, value,
source=None, screenshot=None)`, `Coordinates(x, y)`, `Offset(x, y)`.
Python performs no coercion on constructor arguments, so fields hold
arbitrary `Value`s. -/
inductive Locator
  | imageTemplate (path confidence : Value)
  | browserDOM (strategy value source screenshot : Value)
  | coordinates (x y : Value)
  | offset (x y : Value)
  deriving DecidableEq, Repr

/-- Embedding of the `typename` property of each locator class. -/
def Locator.typename : Locator → String
  | .imageTemplate .. => "image"
  | .browserDOM .. => "browser"
  | .coordinates .. => "coordinates"
  | .offset .. => "offset"

/-- Tags for the four registered locator classes. -/
inductive LocTag
  | image
  | browser
  | coordinates
  | offset
  deriving DecidableEq, Repr

/-- Embedding of the `TYPES` registry that `LocatorMeta` fills in class
declaration order. -/
def TYPES : List (String × LocTag) :=
  [("image", .image), ("browser", .browser),
   ("coordinates", .coordinates), ("offset", .offset)]

/-- Declared primitive type of a dataclass field, as used by
`from_string`'s coercion `field.type(value)`. -/
inductive PyTy
  | pathT
  | floatT
  | strT
  | intT
  | optStrT
  | optPathT
  deriving DecidableEq, Repr

/-- Dataclass field metadata: name, whether a default is declared, the
default value, and the declared type. -/
structure FieldInfo where
  name : String
  hasDefault : Bool
  dflt : Value
  ty : PyTy

/-- Embedding of `dataclasses.fields(class_)` for each locator class, in
declaration order. -/
def fieldsOf : LocTag → List FieldInfo
  | .image =>
    [⟨"path", false, .vNone, .pathT⟩, ⟨"confidence", true, .vFloat 100, .floatT⟩]
  | .browser =>
    [⟨"strategy", false, .vNone, .strT⟩, ⟨"value", false, .vNone, .strT⟩,
     ⟨"source", true, .vNone, .optStrT⟩, ⟨"screenshot", true, .vNone, .optPathT⟩]
  | .coordinates =>
    [⟨"x", false, .vNone, .intT⟩, ⟨"y", false, .vNone, .intT⟩]
  | .offset =>
    [⟨"x", false, .vNone, .intT⟩, ⟨"y", false, .vNone, .intT⟩]

/-- Errors raised by locator construction in
`RPA/core/locators/containers.py` (`ValueError`s with the quoted messages,
and `TypeError`s from coercions or from `class_(*args)`). -/
inductive LocError
  | missingType
  | unknownType
  | missingFields (names : List String)
  | coercionFailed
  | constructionFailed
  deriving DecidableEq, Repr

/-- Record lookup, mirroring Python `dict` access (keys are unique in any
record a caller can build, and `List.lookup` returns the first binding). -/
def lookupKey (k : String) (data : List (String × Value)) : Option Value :=
  List.lookup k data

/-- Embedding of `data.pop("type", None)`'s effect on the remaining record. -/
def removeKey (k : String) (data : List (String × Value)) : List (String × Value) :=
  data.filter (fun kv => kv.1 != k)

/-- Python truthiness of a record value, for the `if not type_:` check
(`pathlib.Path` defines no `__bool__`, so it is always truthy). -/
def isFalsy : Value → Bool
  | .vStr s => s == ""
  | .vPath _ => false
  | .vInt n => n == 0
  | .vFloat q => q == 0
  | .vNone => true

/-- Required-field names of a locator class: fields whose `default` is
`MISSING`, in declaration order (the Python source renders the missing set
in unspecified `set` order; declaration order determinizes it). -/
def requiredNames (tag : LocTag) : List String :=
  ((fieldsOf tag).filter (fun f => !f.hasDefault)).map (fun f => f.name)

/-- The required fields of `tag` absent from `data`:
`set(required) - set(data)`. -/
def missingNames (tag : LocTag) (data : List (String × Value)) : List String :=
  (requiredNames tag).filter (fun n => (lookupKey n data).isNone)

/-- Value used for a declared field when building `class_(**kwargs)`: the
record value if present, otherwise the declared default. -/
def fieldValue (data : List (String × Value)) (f : FieldInfo) : Option Value :=
  match lookupKey f.name data with
  | some v => some v
  | none => if f.hasDefault then some f.dflt else none

/-- Embedding of `class_(*args)` (and of `class_(**kwargs)` once the kwargs
are laid out positionally in field order): missing non-defaulted trailing
arguments raise `TypeError`; defaulted ones are filled in. -/
def constructFrom : LocTag → List Value → Except LocError Locator
  | .image, [p] => .ok (.imageTemplate p (.vFloat 100))
  | .image, [p, c] => .ok (.imageTemplate p c)
  | .browser, [s, v] => .ok (.browserDOM s v .vNone .vNone)
  | .browser, [s, v, so] => .ok (.browserDOM s v so .vNone)
  | .browser, [s, v, so, sc] => .ok (.browserDOM s v so sc)
  | .coordinates, [x, y] => .ok (.coordinates x y)
  | .offset, [x, y] => .ok (.offset x y)
  | _, _ => .error .constructionFailed

/-- Embedding of `Locator.from_dict`: pop `type` (falsy or absent fails),
look the class up in `TYPES` (a non-string or unknown key fails), check the
required fields, then build the class from the declared fields only,
ignoring extras. -/
def Locator.from_dict (data : List (String × Value)) : Except LocError Locator :=
  match lookupKey ("type") data with
  | none => .error .missingType
  | some tv =>
    if isFalsy tv then .error .missingType
    else
      match tv with
      | .vStr s =>
        match List.lookup s TYPES with
        | none => .error .unknownType
        | some tag =>
          let rest := removeKey ("type") data
          let missing := missingNames tag rest
          if missing ≠ [] then .error (.missingFields missing)
          else
            match (fieldsOf tag).mapM (fieldValue rest) with
            | some vals => constructFrom tag vals
            | none => .error .constructionFailed
      | _ => .error .unknownType

/-- Embedding of `Locator.to_dict`: `asdict(self)` lists the declared fields
in order, then `data["type"] = self.typename` appends the type tag. -/
def Locator.to_dict : Locator → List (String × Value)
  | .imageTemplate p c =>
    [("path", p), ("confidence", c), ("type", .vStr ("image"))]
  | .browserDOM s v so sc =>
    [("strategy", s), ("value", v), ("source", so), ("screenshot", sc),
     ("type", .vStr ("browser"))]
  | .coordinates x y =>
    [("x", x), ("y", y), ("type", .vStr ("coordinates"))]
  | .offset x y =>
    [("x", x), ("y", y), ("type", .vStr ("offset"))]

/-- Model of Python `str.split(sep)` for a one-character separator, on char
lists: splitting the empty text yields one empty piece, exactly as in
Python. -/
def splitOnChar (sep : Char) : List Char → List (List Char)
  | [] => [[]]
  | c :: rest =>
    let r := splitOnChar sep rest
    if c = sep then [] :: r
    else
      match r with
      | [] => [[c]]
      | h :: t => (c :: h) :: t

/-- Model of Python `str.strip()`: drop whitespace from both ends. -/
def pyStrip (s : String) : String :=
  (((s.toList.dropWhile Char.isWhitespace).reverse.dropWhile Char.isWhitespace).reverse).asString

/-- Model of Python `str.lower()` (the locator typenames are ASCII). -/
def pyLower (s : String) : String :=
  (s.toList.map Char.toLower).asString

/-- Embedding of `str.partition(":")`, projected to the pieces before and
after the first colon (the separator itself is dropped). -/
def partitionColon (s : String) : String × String :=
  match splitOnChar ':' s.toList with
  | [] => (s, "")
  | [a] => (a.asString, "")
  | a :: rest => (a.asString, (List.intercalate [':'] rest).asString)

/-- Digit-string value, used by the `int`/`float` coercion models. -/
def digitsVal (s : List Char) : Nat :=
  s.foldl (fun a c => a * 10 + (c.toNat - 48)) 0

/-- Embedding of Python `int(str)`: optional surrounding whitespace, an
optional sign, then at least one digit (exotic syntax such as underscores is
never exercised here). -/
def pyParseInt (s : String) : Option Int :=
  let t := (pyStrip s).toList
  match t with
  | '+' :: rest =>
    if rest ≠ [] ∧ rest.all Char.isDigit then some (digitsVal rest : Int) else none
  | '-' :: rest =>
    if rest ≠ [] ∧ rest.all Char.isDigit then some (-(digitsVal rest : Int)) else none
  | _ =>
    if t ≠ [] ∧ t.all Char.isDigit then some (digitsVal t : Int) else none

/-- Embedding of Python `float(str)` on the plain decimal forms the locator
strings use: optional sign, digits with at most one decimal point, at least
one digit overall. -/
def pyParseFloat (s : String) : Option ℚ :=
  let t := (pyStrip s).toList
  let signed : ℚ × List Char :=
    match t with
    | '+' :: rest => (1, rest)
    | '-' :: rest => (-1, rest)
    | _ => (1, t)
  let intPart := signed.2.takeWhile Char.isDigit
  let rest := signed.2.drop intPart.length
  match rest with
  | [] => if intPart ≠ [] then some (signed.1 * digitsVal intPart) else none
  | '.' :: frac =>
    if frac.all Char.isDigit ∧ (intPart ≠ [] ∨ frac ≠ []) then
      some (signed.1 * ((digitsVal intPart : ℚ) + (digitsVal frac : ℚ) / (10 : ℚ) ^ frac.length))
    else none
  | _ => none

/-- Embedding of the coercion `field.type(value)` in `from_string`:
`Path`/`str` wrap the string, `int`/`float` parse it (raising on failure),
and `Optional[...]` is a `typing.Union`, which raises `TypeError` when
called. -/
def coerceVal : PyTy → String → Except LocError Value
  | .pathT, s => .ok (.vPath s)
  | .strT, s => .ok (.vStr s)
  | .intT, s =>
    match pyParseInt s with
    | some n => .ok (.vInt n)
    | none => .error .coercionFailed
  | .floatT, s =>
    match pyParseFloat s with
    | some q => .ok (.vFloat q)
    | none => .error .coercionFailed
  | .optStrT, _ => .error .coercionFailed
  | .optPathT, _ => .error .coercionFailed

/-- Embedding of the zip-and-coerce list comprehension of `from_string`:
`[field.type(value) for field, value in zip(fields(class_), values)]`
(extra values beyond the declared fields are dropped by `zip`, and a short
value list truncates the pairs). -/
def zipCoerce (tag : LocTag) (values : List String) : Except LocError (List Value) :=
  ((fieldsOf tag).zip values).mapM (fun fv => coerceVal fv.1.ty fv.2)

/-- Embedding of `Locator.from_string`: split on the first `:`, normalize the
type with `strip().lower()`, look it up, split the rest on `,`, coerce
positionally, and construct. -/
def Locator.from_string (data : String) : Except LocError Locator :=
  let p := partitionColon data
  let ty := pyLower (pyStrip p.1)
  match List.lookup ty TYPES with
  | none => .error .unknownType
  | some tag =>
    let values := (splitOnChar ',' p.2.toList).map List.asString
    match zipCoerce tag values with
    | .error e => .error e
    | .ok args => constructFrom tag args

end Locators

namespace Images

/-- Embedding of `Images.wait_template_on_screen` from `RPA/Images.py`.
Calls to `time.time()` are modelled by a clock sequence of integer ticks
(the source only subtracts and compares timestamps, so an ordered group
suffices): call `0` is `start_time = time.time()` and call `k ≥ 1` is the
`k`-th evaluation of the loop condition
`time.time() - start_time > timeout`. The `k`-th
`find_template_on_screen` attempt is `attempt k` (`time.sleep(0.1)` only
advances the clock). Falling out of the loop returns Python `None`,
modelled as `.ok none`; fuel bounds the loop iterations. -/
def waitLoop (clock : Nat → Int) (start timeout : Int)
    (attempt : Nat → Except FindError (List Region)) :
    Nat → Nat → Nat → Except FindError (Option (List Region))
  | 0, _, _ => .ok none
  | fuel + 1, clockIdx, attemptIdx =>
    if clock clockIdx - start > timeout then
      match attempt attemptIdx with
      | .ok ms => .ok (some ms)
      | .error .imageNotFound =>
        waitLoop clock start timeout attempt fuel (clockIdx + 1) (attemptIdx + 1)
      | .error e => .error e
    else .ok none

/-- Embedding of `wait_template_on_screen(template, timeout=5)`:
`start_time = time.time()` then the polling loop. -/
def wait_template_on_screen (clock : Nat → Int) (timeout : Int)
    (attempt : Nat → Except FindError (List Region)) (fuel : Nat) :
    Except FindError (Option (List Region)) :=
  waitLoop clock (clock 0) timeout attempt fuel 1 0

end Images

/-! Helper lemmas, shared by several claim proofs. -/

/-- Clamping `max(0.01, min(confidence, 1.00))` is monotone in the raw
confidence value. -/
theorem clampConfidence_le_of_le {c1 c2 : ℚ} (h : c1 ≤ c2) :
    max (Rat.divInt 1 100) (min c1 1) ≤ max (Rat.divInt 1 100) (min c2 1) :=
  max_le_max le_rfl (min_le_min h le_rfl)

/-- Raising the threshold of `findLoop` only truncates the emitted sequence:
the state trajectory (suppressed maps) does not depend on the threshold, so
the run at the higher threshold is an initial segment of the run at the
lower one. -/
theorem findLoop_append_of_le (tw th : Nat) {d1 d2 : ℚ} (hd : d1 ≤ d2) :
    ∀ (fuel : Nat) (m : List (List ℚ)),
      ∃ t, RecognitionTemplates.findLoop m d2 tw th fuel ++ t
        = RecognitionTemplates.findLoop m d1 tw th fuel := by
  intro fuel
  induction fuel with
  | zero => exact fun m => ⟨[], rfl⟩
  | succ n ih =>
    intro m
    by_cases h2 : (RecognitionTemplates.minMaxLocMax m).1 < d2
    · refine ⟨RecognitionTemplates.findLoop m d1 tw th (n + 1), ?_⟩
      have e2 : RecognitionTemplates.findLoop m d2 tw th (n + 1) = [] := by
        simp only [RecognitionTemplates.findLoop]
        rw [if_pos h2]
      rw [e2, List.nil_append]
    · have h1 : ¬ (RecognitionTemplates.minMaxLocMax m).1 < d1 :=
        fun hlt => h2 (lt_of_lt_of_le hlt hd)
      obtain ⟨t, ht⟩ := ih (RecognitionTemplates.suppress m
        (RecognitionTemplates.minMaxLocMax m).2.1
        (RecognitionTemplates.minMaxLocMax m).2.2 tw th)
      refine ⟨t, ?_⟩
      simp only [RecognitionTemplates.findLoop]
      rw [if_neg h2, if_neg h1, List.cons_append, ht]

/-- Filtering with a predicate that keeps every binding of key `k` does not
change the lookup of `k`. -/
theorem lookup_filter_of_true (p : String × Locators.Value → Bool) (k : String)
    (data : List (String × Locators.Value)) (hq : ∀ v, p (k, v) = true) :
    List.lookup k (data.filter p) = List.lookup k data := by
  induction data with
  | nil => rfl
  | cons hd tl ih =>
    rcases hd with ⟨k1, v1⟩
    by_cases hp : p (k1, v1) = true
    · by_cases hk : (k == k1) = true
      · simp [List.filter_cons, hp, List.lookup, hk]
      · simp [List.filter_cons, hp, List.lookup, hk, ih]
    · have hk : (k == k1) = false := by
        rcases h : (k == k1) with _ | _
        · rfl
        · exact absurd (beq_iff_eq.mp h ▸ hq v1) hp
      simp [List.filter_cons, hp, List.lookup, hk, ih]

/-- Two `Option`-valued maps that agree on a list produce the same `mapM`. -/
theorem mapM_option_congr {α β : Type} (f g : α → Option β) :
    ∀ (l : List α), (∀ a ∈ l, f a = g a) → l.mapM f = l.mapM g := by
  intro l
  induction l with
  | nil => intro _; rfl
  | cons hd tl ih =>
    intro h
    simp only [List.mapM_cons, h hd (by simp), ih (fun a ha => h a (by simp [ha]))]

/-- A successful `Except`-valued `mapM` preserves the length of the list. -/
theorem mapM_except_ok_length {α β ε : Type} (f : α → Except ε β) :
    ∀ (l : List α) (res : List β), l.mapM f = .ok res → res.length = l.length := by
  intro l
  induction l with
  | nil =>
    intro res h
    simp only [List.mapM_nil] at h
    cases h
    rfl
  | cons hd tl ih =>
    intro res h
    simp only [List.mapM_cons] at h
    cases hfa : f hd with
    | error e => rw [hfa] at h; cases h
    | ok b =>
      rw [hfa] at h
      cases hrest : tl.mapM f with
      | error e =>
        rw [hrest] at h
        cases h
      | ok bs =>
        rw [hrest] at h
        cases h
        simp [ih bs hrest]

/-- Once the `type` field resolved to a known tag, `from_dict` reduces to the
missing-field check followed by construction from the declared fields. -/
theorem from_dict_resolved (data : List (String × Locators.Value)) (s : String)
    (tag : Locators.LocTag)
    (h : Locators.lookupKey ("type") data = some (.vStr s)) (hs : s ≠ "")
    (ht : List.lookup s Locators.TYPES = some tag) :
    Locators.Locator.from_dict data =
      (if Locators.missingNames tag (Locators.removeKey ("type") data) ≠ [] then
        .error (.missingFields (Locators.missingNames tag (Locators.removeKey ("type") data)))
      else
        match (Locators.fieldsOf tag).mapM
            (Locators.fieldValue (Locators.removeKey ("type") data)) with
        | some vals => Locators.constructFrom tag vals
        | none => .error .constructionFailed) := by
  have hb : (s == "") = false := beq_eq_false_iff_ne.mpr hs
  simp only [Locators.Locator.from_dict, h, Locators.isFalsy, hb, Bool.false_eq_true,
    if_false, ht]

/-- Declared field names of every locator class differ from `"type"`. -/
theorem fields_name_ne_type (tag : Locators.LocTag) :
    ∀ f ∈ Locators.fieldsOf tag, (f.name == "type") = false := by
  cases tag <;> intro f hf <;>
    simp only [Locators.fieldsOf, List.mem_cons, List.not_mem_nil, or_false] at hf <;>
    rcases hf with rfl | hf <;> first | rfl | (rcases hf with rfl | hf) <;>
    first | rfl | (rcases hf with rfl | rfl) <;> rfl

/-! Claim theorems. -/

/-- C1: the haystack (width 1, rows `[10], [20], [0]`) contains the template
(width 1, rows `[10], [20]`) as an exact pixel-for-pixel copy at `(0, 0)` and
nowhere else, and row `0` has enough rows below it to fit the template, yet
`_fallback` yields no region at all (the claim demands exactly
`{left:0, top:0, right:1, bottom:2}`): its verification loop
`enumerate(template_rows[1:], image_y)` compares template row `1 + k` with
haystack row `y + k` instead of `y + 1 + k`, so the exact copy is rejected. -/
theorem fallback_misses_exact_copy :
    (CoreTemplates._chunks [10, 20, 0] 1).take 2 = CoreTemplates._chunks [10, 20] 1
    ∧ CoreTemplates._fallback ⟨1, 3, [10, 20, 0]⟩ ⟨1, 2, [10, 20]⟩ = []
    ∧ ([] : List Region) ≠ [Region.from_size 0 0 1 2] := by
  decide

/-- C2, counterexample: on the coefficient map `[[1, 0], [0, 0]]` with
confidence `0.9` and a `2 × 2` template, the accepted global maximum is at
`(x, y) = (0, 0)`, yet the emitted region is `Region.from_size(0, 0, 2, 2)`
with left edge `0`, not the centered box
`Region.from_size(0 - 2/2, 0 - 2/2, 2, 2)` with left edge `-1` that the
claim requires. -/
theorem accel_emits_topleft_counterexample :
    RecognitionTemplates.minMaxLocMax [[(1 : ℚ), 0], [0, 0]] = (1, 0, 0)
    ∧ Rat.divInt 9 10 ≤ 1
    ∧ RecognitionTemplates.findLoop [[(1 : ℚ), 0], [0, 0]] (Rat.divInt 9 10) 2 2 1
        = [Region.from_size 0 0 2 2]
    ∧ Region.from_size 0 0 2 2 ≠ Region.from_size (0 - 2 / 2) (0 - 2 / 2) 2 2 := by
  decide

/-- C2, amended: every region the accelerated loop emits is anchored at an
accepted global maximum `(x, y)` of some suppression iterate of the
coefficient map — the region is `Region.from_size(x, y, tw, th)`, so its
left edge is `x` and its top edge is `y` (top-left anchored, not centered);
only the suppression neighborhood is centered on the match. -/
theorem accel_emission_geometry (m : List (List ℚ)) (conf : ℚ) (tw th fuel : Nat)
    (r : Region) (h : r ∈ RecognitionTemplates.findLoop m conf tw th fuel) :
    ∃ m2 c x y,
      RecognitionTemplates.SuppressReach conf tw th m m2
      ∧ RecognitionTemplates.minMaxLocMax m2 = (c, x, y)
      ∧ conf ≤ c
      ∧ r = Region.from_size x y tw th
      ∧ r.left = x ∧ r.top = y := by
  induction fuel generalizing m with
  | zero => simp [RecognitionTemplates.findLoop] at h
  | succ n ih =>
    simp only [RecognitionTemplates.findLoop] at h
    by_cases hlt : (RecognitionTemplates.minMaxLocMax m).1 < conf
    · rw [if_pos hlt] at h
      cases h
    · rw [if_neg hlt] at h
      rcases List.mem_cons.mp h with hr | hr

      · refine ⟨m, (RecognitionTemplates.minMaxLocMax m).1,
          (RecognitionTemplates.minMaxLocMax m).2.1,
          (RecognitionTemplates.minMaxLocMax m).2.2,
          .refl m, rfl, le_of_not_lt hlt, hr, ?_, ?_⟩ <;> rw [hr] <;> rfl
      · obtain ⟨m2, c, x, y, hreach, hmax, hc, hr2, hl, htp⟩ := ih _ hr
        exact ⟨m2, c, x, y,
          .head m m2 (RecognitionTemplates.minMaxLocMax m).1
            (RecognitionTemplates.minMaxLocMax m).2.1
            (RecognitionTemplates.minMaxLocMax m).2.2 rfl (le_of_not_lt hlt) hreach,
          hmax, hc, hr2, hl, htp⟩

/-- C2, witness for the amended theorem at the concrete counterexample map. -/
theorem accel_emission_geometry_witness :
    Region.from_size 0 0 2 2 ∈
        RecognitionTemplates.findLoop [[(1 : ℚ), 0], [0, 0]] (Rat.divInt 9 10) 2 2 1
    ∧ ∃ m2 c x y,
        RecognitionTemplates.SuppressReach (Rat.divInt 9 10) 2 2 [[(1 : ℚ), 0], [0, 0]] m2
        ∧ RecognitionTemplates.minMaxLocMax m2 = (c, x, y)
        ∧ Rat.divInt 9 10 ≤ c
        ∧ Region.from_size 0 0 2 2 = Region.from_size x y 2 2
        ∧ (Region.from_size 0 0 2 2).left = x ∧ (Region.from_size 0 0 2 2).top = y :=
  ⟨by decide,
    accel_emission_geometry [[(1 : ℚ), 0], [0, 0]] (Rat.divInt 9 10) 2 2 1
      (Region.from_size 0 0 2 2) (by decide)⟩

/-- C3: when the driver's caller omits `confidence`, `_find` forwards Python
`None` positionally into the accelerated backend, whose clamp
`max(0.01, min(None, 1.00))` raises `TypeError` — the declared default
`DEFAULT_CONFIDENCE = 0.95` is never used and the call does not succeed;
passing the default explicitly does succeed. -/
theorem driver_default_confidence_bug :
    (∀ (m : List (List ℚ)) (tw th fuel : Nat) (limit : Option Nat),
      CoreTemplates._find (RecognitionTemplates.find m tw th fuel) none limit
        = .error .typeErrorNoneConfidence)
    ∧ CoreTemplates._find
        (RecognitionTemplates.find [[(1 : ℚ), 0], [0, 0]] 2 2 3)
        (some RecognitionTemplates.DEFAULT_CONFIDENCE) (some 1)
        = .ok [Region.from_size 0 0 2 2] := by
  refine ⟨fun m tw th fuel limit => rfl, by decide⟩

/-- C4: the polling loop of `wait_template_on_screen` has its condition
inverted (`while time.time() - start_time > timeout`), so whenever the first
condition check happens within the timeout the body never runs: no `find`
attempt is made — regardless of what `attempt` would return — and the
function returns `None` instead of polling or raising a timeout error. -/
theorem wait_never_polls (clock : Nat → Int) (timeout : Int)
    (attempt : Nat → Except FindError (List Region)) (fuel : Nat)
    (h : clock 1 - clock 0 ≤ timeout) :
    Images.wait_template_on_screen clock timeout attempt (fuel + 1) = .ok none := by
  simp only [Images.wait_template_on_screen, Images.waitLoop]
  rw [if_neg (not_lt.mpr h)]

/-- C4, witness: a clock advancing one tick per call with `timeout = 5` and
an attempt that would succeed immediately still yields `None` with no poll. -/
theorem wait_never_polls_witness :
    ((fun k => (k : Int)) 1 - (fun k => (k : Int)) 0 ≤ 5)
    ∧ Images.wait_template_on_screen (fun k => (k : Int)) 5
        (fun _ => .ok [Region.from_size 0 0 1 1]) 3 = .ok none :=
  ⟨by decide, wait_never_polls _ _ _ 2 (by decide)⟩

/-- C5: on the coefficient map `[[1, 0], [0, 0]]` (a match at the border,
e.g. the template sitting at the haystack's top-left corner) with a `2 × 2`
template, the suppression slice `[0 - 1 : 0 + 1]` has a negative start that
numpy wraps around, producing an empty slice: the map is left unchanged and
the loop emits the same region twice — two regions with identical centers,
violating the half-dimension separation. -/
theorem accel_border_suppression_noop :
    RecognitionTemplates.suppress [[(1 : ℚ), 0], [0, 0]] 0 0 2 2 = [[1, 0], [0, 0]]
    ∧ RecognitionTemplates.findLoop [[(1 : ℚ), 0], [0, 0]] (Rat.divInt 1 2) 2 2 2
        = [Region.from_size 0 0 2 2, Region.from_size 0 0 2 2]
    ∧ (Region.from_size 0 0 2 2).center = ⟨1, 1⟩ := by
  decide

/-- C6: for the same coefficient map and template, raising the confidence
threshold from `c1` to `c2 ≥ c1` never increases the number of returned
matches: the run at the higher threshold is an initial segment of the run at
the lower one (the suppression trajectory does not depend on the threshold,
which only decides where the loop stops). -/
theorem accel_confidence_monotone (m : List (List ℚ)) (tw th fuel : Nat)
    (c1 c2 : ℚ) (h : c1 ≤ c2) :
    ∃ l1 l2,
      RecognitionTemplates.find m tw th fuel (some c1) = .ok l1
      ∧ RecognitionTemplates.find m tw th fuel (some c2) = .ok l2
      ∧ (∃ t, l2 ++ t = l1)
      ∧ l2.length ≤ l1.length := by
  obtain ⟨t, ht⟩ := findLoop_append_of_le tw th (clampConfidence_le_of_le h) fuel m
  refine ⟨_, _, rfl, rfl, ⟨t, ht⟩, ?_⟩
  rw [← ht]
  simp

/-- C6, witness at the concrete map `[[1, 0], [0, 0]]` with thresholds
`0.5 ≤ 0.9`. -/
theorem accel_confidence_monotone_witness :
    (Rat.divInt 1 2 ≤ Rat.divInt 9 10)
    ∧ ∃ l1 l2,
        RecognitionTemplates.find [[(1 : ℚ), 0], [0, 0]] 2 2 2
            (some (Rat.divInt 1 2)) = .ok l1
        ∧ RecognitionTemplates.find [[(1 : ℚ), 0], [0, 0]] 2 2 2
            (some (Rat.divInt 9 10)) = .ok l2
        ∧ (∃ t, l2 ++ t = l1)
        ∧ l2.length ≤ l1.length :=
  ⟨by decide,
    accel_confidence_monotone [[(1 : ℚ), 0], [0, 0]] 2 2 2
      (Rat.divInt 1 2) (Rat.divInt 9 10) (by decide)⟩

/-- C7: round-trip law: for every constructible locator (any variant, any
field values), `from_record(to_record(L))` pops the injected type field,
finds every declared field present, and rebuilds a locator structurally
equal to `L`. -/
theorem from_dict_to_dict_roundtrip (L : Locators.Locator) :
    Locators.Locator.from_dict (Locators.Locator.to_dict L) = .ok L := by
  cases L <;> rfl

/-- C8: `from_record` fails with the missing-type error when the record has
no `type` field, with the unknown-locator-type error when the type matches
no variant, and with the missing-field error naming the absent required
fields; otherwise it builds the variant from the declared fields only — a
record filtered down to its `type` and declared fields constructs the same
result, and the concrete instances from the spec behave as claimed. -/
theorem from_dict_error_taxonomy :
    (∀ data : List (String × Locators.Value),
      Locators.lookupKey ("type") data = none →
      Locators.Locator.from_dict data = .error .missingType)
    ∧ (∀ (data : List (String × Locators.Value)) (s : String),
        Locators.lookupKey ("type") data = some (.vStr s) → s ≠ "" →
        List.lookup s Locators.TYPES = none →
        Locators.Locator.from_dict data = .error .unknownType)
    ∧ (∀ (data : List (String × Locators.Value)) (s : String) (tag : Locators.LocTag),
        Locators.lookupKey ("type") data = some (.vStr s) → s ≠ "" →
        List.lookup s Locators.TYPES = some tag →
        Locators.missingNames tag (Locators.removeKey ("type") data) ≠ [] →
        Locators.Locator.from_dict data =
          .error (.missingFields
            (Locators.missingNames tag (Locators.removeKey ("type") data))))
    ∧ (∀ (data : List (String × Locators.Value)) (s : String) (tag : Locators.LocTag),
        Locators.lookupKey ("type") data = some (.vStr s) → s ≠ "" →
        List.lookup s Locators.TYPES = some tag →
        Locators.Locator.from_dict data =
          Locators.Locator.from_dict
            (data.filter (fun kv =>
              kv.1 == "type" || (Locators.fieldsOf tag).any (fun f => f.name == kv.1))))
    ∧ Locators.Locator.from_dict [("type", .vStr ("image"))]
        = .error (.missingFields ["path"])
    ∧ Locators.Locator.from_dict [("type", .vStr ("bogus"))] = .error .unknownType
    ∧ Locators.Locator.from_dict
        [("type", .vStr ("coordinates")), ("x", .vInt 120), ("y", .vInt 340),
         ("junk", .vStr ("zzz"))]
        = .ok (.coordinates (.vInt 120) (.vInt 340)) := by
  refine ⟨?_, ?_, ?_, ?_, by decide, by decide, by decide⟩
  · intro data h
    simp only [Locators.Locator.from_dict, h]
  · intro data s h hs ht
    have hb : (s == "") = false := beq_eq_false_iff_ne.mpr hs
    simp only [Locators.Locator.from_dict, h, Locators.isFalsy, hb,
      Bool.false_eq_true, if_false, ht]
  · intro data s tag h hs ht hm
    rw [from_dict_resolved data s tag h hs ht, if_pos hm]
  · intro data s tag h hs ht
    have hkeep : ∀ v : Locators.Value,
        ((("type" : String), v).1 == "type"
          || (Locators.fieldsOf tag).any (fun f => f.name == (("type" : String), v).1))
          = true := by
      intro v
      simp
    have e1 : Locators.lookupKey ("type")
        (data.filter (fun kv =>
          kv.1 == "type" || (Locators.fieldsOf tag).any (fun f => f.name == kv.1)))
        = some (.vStr s) := by
      have := lookup_filter_of_true
        (fun kv => kv.1 == "type" || (Locators.fieldsOf tag).any (fun f => f.name == kv.1))
        ("type") data hkeep
      exact this.trans h
    -- key fact: for a declared field name, the lookup after removing `type`
    -- agrees between the original and the filtered record
    have hlk : ∀ n : String, (Locators.fieldsOf tag).any (fun f => f.name == n) = true →
        Locators.lookupKey n (Locators.removeKey ("type")
          (data.filter (fun kv =>
            kv.1 == "type" || (Locators.fieldsOf tag).any (fun f => f.name == kv.1))))
        = Locators.lookupKey n (Locators.removeKey ("type") data) := by
      intro n hn
      have hnty : (n == "type") = false := by
        obtain ⟨f, hf, hfn⟩ := List.any_eq_true.mp hn
        have := fields_name_ne_type tag f hf
        rw [beq_iff_eq.mp hfn] at this
        exact this
      have hnne : n ≠ "type" := beq_eq_false_iff_ne.mp hnty
      have step1 : Locators.lookupKey n (Locators.removeKey ("type")
          (data.filter (fun kv =>
            kv.1 == "type" || (Locators.fieldsOf tag).any (fun f => f.name == kv.1))))
          = List.lookup n data := by
        rw [Locators.removeKey, List.filter_filter]
        exact lookup_filter_of_true _ n data (fun v => by simp [hnne, hn])
      have step2 : Locators.lookupKey n (Locators.removeKey ("type") data)
          = List.lookup n data := by
        rw [Locators.removeKey]
        exact lookup_filter_of_true _ n data (fun v => by simp [hnne])
      rw [step1, step2]
    have hmiss : Locators.missingNames tag (Locators.removeKey ("type")
          (data.filter (fun kv =>
            kv.1 == "type" || (Locators.fieldsOf tag).any (fun f => f.name == kv.1))))
        = Locators.missingNames tag (Locators.removeKey ("type") data) := by
      rw [Locators.missingNames, Locators.missingNames]
      refine List.filter_congr ?_
      intro n hn
      have hany : (Locators.fieldsOf tag).any (fun f => f.name == n) = true := by
        rw [Locators.requiredNames] at hn
        obtain ⟨f, hf, rfl⟩ := List.mem_map.mp hn
        exact List.any_eq_true.mpr ⟨f, List.mem_of_mem_filter hf, by simp⟩
      rw [hlk n hany]
    have hmapm : (Locators.fieldsOf tag).mapM
          (Locators.fieldValue (Locators.removeKey ("type")
            (data.filter (fun kv =>
              kv.1 == "type" || (Locators.fieldsOf tag).any (fun f => f.name == kv.1)))))
        = (Locators.fieldsOf tag).mapM
            (Locators.fieldValue (Locators.removeKey ("type") data)) := by
      refine mapM_option_congr _ _ _ ?_
      intro f hf
      have hany : (Locators.fieldsOf tag).any (fun g => g.name == f.name) = true :=
        List.any_eq_true.mpr ⟨f, hf, by simp⟩
      rw [Locators.fieldValue, Locators.fieldValue, hlk f.name hany]
    rw [from_dict_resolved data s tag h hs ht,
      from_dict_resolved _ s tag e1 hs ht, hmiss, hmapm]

/-- C8, witness: concrete records exercising the missing-type, unknown-type
and missing-fields branches of the taxonomy. -/
theorem from_dict_error_taxonomy_witness :
    Locators.Locator.from_dict [("x", Locators.Value.vInt 1)] = .error .missingType
    ∧ Locators.Locator.from_dict [("type", Locators.Value.vStr ("nope"))]
        = .error .unknownType
    ∧ Locators.Locator.from_dict [("type", Locators.Value.vStr ("browser"))]
        = .error (.missingFields (Locators.missingNames .browser
            (Locators.removeKey ("type") [("type", Locators.Value.vStr ("browser"))]))) :=
  ⟨from_dict_error_taxonomy.1 [("x", Locators.Value.vInt 1)] (by decide),
    from_dict_error_taxonomy.2.1 [("type", Locators.Value.vStr ("nope"))] ("nope")
      (by decide) (by decide) (by decide),
    from_dict_error_taxonomy.2.2.1 [("type", Locators.Value.vStr ("browser"))] ("browser")
      .browser (by decide) (by decide) (by decide) (by decide)⟩

/-- C9, counterexample: `from_string("image:foo")` supplies one positional
value against the two declared fields of the image variant, yet the
construction succeeds — `confidence` is filled from its dataclass default
`100.0` — contradicting the claimed exact-field-count (no defaults)
contract. -/
theorem from_string_short_values_counterexample :
    Locators.Locator.from_string ("image:foo")
      = .ok (.imageTemplate (.vPath ("foo")) (.vFloat 100))
    ∧ (Locators.fieldsOf .image).length = 2 := by
  decide

/-- C9, amended: after zipping against the declared fields and coercing,
construction fails exactly when the coerced value list is shorter than the
variant's required (defaultless) field count; a shorter-but-sufficient list
succeeds with the declared defaults filling the remaining fields (and a
coercion failure aborts before construction, as `zipCoerce`'s `Except`
already encodes). -/
theorem from_string_arity (tag : Locators.LocTag) (values : List String)
    (args : List Locators.Value)
    (h : Locators.zipCoerce tag values = .ok args) :
    (args.length < (Locators.requiredNames tag).length →
      Locators.constructFrom tag args = .error .constructionFailed)
    ∧ ((Locators.requiredNames tag).length ≤ args.length →
      ∃ L, Locators.constructFrom tag args = .ok L) := by
  have hlen : args.length ≤ (Locators.fieldsOf tag).length := by
    have hz := mapM_except_ok_length _ _ _ h
    rw [hz, List.length_zip]
    exact min_le_left _ _
  cases tag with
  | image =>
    rcases args with _ | ⟨a1, _ | ⟨a2, rest⟩⟩
    · refine ⟨fun _ => rfl, fun hge => ?_⟩
      simp only [Locators.requiredNames, Locators.fieldsOf, List.filter, List.map,
        List.length_cons, List.length_nil] at hge
      omega
    · refine ⟨fun hlt => ?_, fun _ => ⟨_, rfl⟩⟩
      simp only [Locators.requiredNames, Locators.fieldsOf, List.filter, List.map,
        List.length_cons, List.length_nil] at hlt
      omega
    · rcases rest with _ | ⟨a3, rest⟩
      · refine ⟨fun hlt => ?_, fun _ => ⟨_, rfl⟩⟩
        simp only [Locators.requiredNames, Locators.fieldsOf, List.filter, List.map,
          List.length_cons, List.length_nil] at hlt
        omega
      · exfalso
        simp only [Locators.fieldsOf, List.length_cons, List.length_nil] at hlen
        omega
  | browser =>
    rcases args with _ | ⟨a1, _ | ⟨a2, _ | ⟨a3, _ | ⟨a4, _ | ⟨a5, rest⟩⟩⟩⟩⟩
    · exact ⟨fun _ => rfl, fun hge => by
        simp only [Locators.requiredNames, Locators.fieldsOf, List.filter, List.map,
          List.length_cons, List.length_nil] at hge
        omega⟩
    · exact ⟨fun _ => rfl, fun hge => by
        simp only [Locators.requiredNames, Locators.fieldsOf, List.filter, List.map,
          List.length_cons, List.length_nil] at hge
        omega⟩
    · exact ⟨fun hlt => by
        simp only [Locators.requiredNames, Locators.fieldsOf, List.filter, List.map,
          List.length_cons, List.length_nil] at hlt
        omega, fun _ => ⟨_, rfl⟩⟩
    · exact ⟨fun hlt => by
        simp only [Locators.requiredNames, Locators.fieldsOf, List.filter, List.map,
          List.length_cons, List.length_nil] at hlt
        omega, fun _ => ⟨_, rfl⟩⟩
    · exact ⟨fun hlt => by
        simp only [Locators.requiredNames, Locators.fieldsOf, List.filter, List.map,
          List.length_cons, List.length_nil] at hlt
        omega, fun _ => ⟨_, rfl⟩⟩
    · exfalso
      simp only [Locators.fieldsOf, List.length_cons, List.length_nil] at hlen
      omega
  | coordinates =>
    rcases args with _ | ⟨a1, _ | ⟨a2, rest⟩⟩
    · exact ⟨fun _ => rfl, fun hge => by
        simp only [Locators.requiredNames, Locators.fieldsOf, List.filter, List.map,
          List.length_cons, List.length_nil] at hge
        omega⟩
    · exact ⟨fun _ => rfl, fun hge => by
        simp only [Locators.requiredNames, Locators.fieldsOf, List.filter, List.map,
          List.length_cons, List.length_nil] at hge
        omega⟩
    · rcases rest with _ | ⟨a3, rest⟩
      · exact ⟨fun hlt => by
          simp only [Locators.requiredNames, Locators.fieldsOf, List.filter, List.map,
            List.length_cons, List.length_nil] at hlt
          omega, fun _ => ⟨_, rfl⟩⟩
      · exfalso
        simp only [Locators.fieldsOf, List.length_cons, List.length_nil] at hlen
        omega
  | offset =>
    rcases args with _ | ⟨a1, _ | ⟨a2, rest⟩⟩
    · exact ⟨fun _ => rfl, fun hge => by
        simp only [Locators.requiredNames, Locators.fieldsOf, List.filter, List.map,
          List.length_cons, List.length_nil] at hge
        omega⟩
    · exact ⟨fun _ => rfl, fun hge => by
        simp only [Locators.requiredNames, Locators.fieldsOf, List.filter, List.map,
          List.length_cons, List.length_nil] at hge
        omega⟩
    · rcases rest with _ | ⟨a3, rest⟩
      · exact ⟨fun hlt => by
          simp only [Locators.requiredNames, Locators.fieldsOf, List.filter, List.map,
            List.length_cons, List.length_nil] at hlt
          omega, fun _ => ⟨_, rfl⟩⟩
      · exfalso
        simp only [Locators.fieldsOf, List.length_cons, List.length_nil] at hlen
        omega

/-- C9, witness at the concrete short-but-sufficient input `image:foo`. -/
theorem from_string_arity_witness :
    Locators.zipCoerce .image ["foo"] = .ok [.vPath ("foo")]
    ∧ (([Locators.Value.vPath ("foo")]).length
          < (Locators.requiredNames .image).length →
        Locators.constructFrom .image [.vPath ("foo")] = .error .constructionFailed)
    ∧ ((Locators.requiredNames .image).length
          ≤ ([Locators.Value.vPath ("foo")]).length →
        ∃ L, Locators.constructFrom .image [.vPath ("foo")] = .ok L) :=
  ⟨by decide,
    (from_string_arity .image ["foo"] [.vPath ("foo")] (by decide)).1,
    (from_string_arity .image ["foo"] [.vPath ("foo")] (by decide)).2⟩

/-- C10: whenever the driver `find` is called with a search region and
succeeds, its result is exactly the engine's matches on the cropped image
(limit-truncated by `_find`), each translated by
`(region.left, region.top)` back into original-image coordinates. -/
theorem find_region_remap (image template : Img) (r : Region) (limit : Option Nat)
    (conf : Option ℚ)
    (engine : Img → Img → Option ℚ → Except FindError (List Region))
    (ms : List Region)
    (h : CoreTemplates.find image template (some r) limit conf engine = .ok ms) :
    ∃ ms0,
      CoreTemplates._find (engine (CoreTemplates.cropImg image r) template) conf limit
        = .ok ms0
      ∧ ms0 ≠ []
      ∧ ms = ms0.map (fun m => m.move r.left r.top) := by
  simp only [CoreTemplates.find] at h
  split at h
  · cases h
  · split at h
    · cases h
    · rename_i ms0 heq
      split at h
      · cases h
      · rename_i hne
        refine ⟨ms0, heq, hne, ?_⟩
        cases h
        rfl

/-- C10, witness: a `3 × 3` haystack with the pixel `7` at `(1, 1)`, a
`1 × 1` template, and the crop region `(1, 1, 3, 3)`: the engine finds the
match at local `(0, 0)` and the driver returns it at global `(1, 1)`. -/
theorem find_region_remap_witness :
    CoreTemplates.find ⟨3, 3, [0, 0, 0, 0, 7, 0, 0, 0, 0]⟩ ⟨1, 1, [7]⟩
        (some ⟨1, 1, 3, 3⟩) none none CoreTemplates.engineFallback
      = .ok [⟨1, 1, 2, 2⟩]
    ∧ ∃ ms0,
        CoreTemplates._find (CoreTemplates.engineFallback
            (CoreTemplates.cropImg ⟨3, 3, [0, 0, 0, 0, 7, 0, 0, 0, 0]⟩ ⟨1, 1, 3, 3⟩)
            ⟨1, 1, [7]⟩) none none
          = .ok ms0
        ∧ ms0 ≠ []
        ∧ [(⟨1, 1, 2, 2⟩ : Region)]
            = ms0.map (fun m =>
                m.move (⟨1, 1, 3, 3⟩ : Region).left (⟨1, 1, 3, 3⟩ : Region).top) :=
  ⟨by decide,
    find_region_remap ⟨3, 3, [0, 0, 0, 0, 7, 0, 0, 0, 0]⟩ ⟨1, 1, [7]⟩ ⟨1, 1, 3, 3⟩
      none none CoreTemplates.engineFallback [⟨1, 1, 2, 2⟩] (by decide)⟩

end Spec2Proof
